import Mathlib

/-!
# Verification of the AIM report automation core

Shallow embedding of the floor/room extraction, ranking, sorting and
business-day aging logic of the repository `aim_report_automation`.

The repository contains two near-duplicate implementations:

* `Python/aim_report_automation.py` — embedded below in namespace
  `aim_report_automation` (functions `_extract_floor_room`, `_floor_rank`,
  `_room_rank`, `_building_rank`, `_business_days`, `_find_column`,
  `prepare_dataframe`);
* `Python/aim_formatter.py` — embedded in namespace `aim_formatter`
  (functions `extract_floor_room`, `floor_rank`, `room_rank`,
  `calculate_business_days`, `find_col`, `run_aim_formatter`).

Strings are modelled as lists of characters (`String.data`); the specific
regular expressions used by the source are translated into deterministic
character-list scanners (the patterns involved never need backtracking
beyond what the scanners implement, as argued in the comments).
Python's `IGNORECASE` matching, `str.strip`, `str.upper`, `str.isdigit`
and tuple comparison are modelled with their ASCII semantics, which is the
character set the source's descriptions and tokens use.
-/

/-- Python `str.strip` whitespace set (ASCII): space, tab, LF, VT, FF, CR. -/
def py_isspace (c : Char) : Bool :=
  c = ' ' || c = '\t' || c = '\n' || c = '\x0b' || c = '\x0c' || c = '\r'

/-- `[A-Za-z0-9]` character class of the source's regexes. -/
def isAlnum (c : Char) : Bool :=
  c.isAlpha || c.isDigit

/-- Regex word character (`\w`, ASCII), used to model `\b` boundaries. -/
def isWordChar (c : Char) : Bool :=
  c.isAlpha || c.isDigit || c = '_'

/-- `[A-Z]` character class (upper-case ASCII letter). -/
def isUpperAlpha (c : Char) : Bool :=
  'A' ≤ c && c ≤ 'Z'

/-- Python `str.strip()` on a character list. -/
def pyStrip (cs : List Char) : List Char :=
  ((cs.dropWhile py_isspace).reverse.dropWhile py_isspace).reverse

/-- Python `str.upper()` on a character list (ASCII). -/
def upperList (cs : List Char) : List Char :=
  cs.map Char.toUpper

/-- Python `int(...)` on a non-empty digit string. -/
def digitsToNat (cs : List Char) : Nat :=
  cs.foldl (fun n c => n * 10 + (c.toNat - 48)) 0

/-- Case-insensitive literal match: consume `lit` (given lower-case) from the
front of `s`, returning the rest of `s` on success. -/
def matchLitCI : List Char → List Char → Option (List Char)
  | [], s => some s
  | _ :: _, [] => none
  | l :: ls, c :: cs => if c.toLower = l then matchLitCI ls cs else none

/-- First alternative of a regex alternation that matches at this position
(Python tries alternatives left to right).  The alternative sets used by the
source are pairwise exclusive at any single position, so no backtracking into
the alternation is needed. -/
def firstLit : List (List Char) → List Char → Option (List Char)
  | [], _ => none
  | lit :: rest, s =>
    match matchLitCI lit s with
    | some r => some r
    | none => firstLit rest s

/-- `re.search` position scan (no word-boundary context needed): try the
position matcher at every position, leftmost match wins. -/
def searchAt (f : List Char → Option (List Char)) : List Char → Option (List Char)
  | [] => f []
  | c :: cs =>
    match f (c :: cs) with
    | some r => some r
    | none => searchAt f cs

/-- `re.search` position scan for patterns that look at a `\b` boundary:
the matcher also receives the previous character (if any). -/
def searchBAt (f : Option Char → List Char → Option (List Char)) :
    Option Char → List Char → Option (List Char)
  | prev, [] => f prev []
  | prev, c :: cs =>
    match f prev (c :: cs) with
    | some r => some r
    | none => searchBAt f (some c) cs

/-- A `\b` boundary holds before a word character iff the previous character
is absent or not a word character. -/
def boundaryOk (prev : Option Char) : Bool :=
  match prev with
  | none => true
  | some c => !(isWordChar c)

/-- Position matcher for `(?:lit1|lit2|...)\s*[:\-]?\s*([A-Za-z0-9]+)`
(case-insensitive), the marker style used by `aim_report_automation.py`.
`\s*`, `[:\-]?` and `\s*` are matched greedily; greediness is equivalent to
full backtracking here because shrinking those pieces only re-exposes
whitespace, `:` or `-` characters, never an alphanumeric one. -/
def marker1At (lits : List (List Char)) (s : List Char) : Option (List Char) :=
  match firstLit lits s with
  | none => none
  | some rest =>
    let r1 := rest.dropWhile py_isspace
    let r2 := match r1 with
      | c :: cs => if c = ':' || c = '-' then cs else r1
      | [] => r1
    let r3 := r2.dropWhile py_isspace
    let tok := r3.takeWhile isAlnum
    if tok = [] then none else some tok

/-- Position matcher for `(?:lit1:|lit2:)\s*([A-Za-z0-9]+)`
(case-insensitive), the marker style used by `aim_formatter.py` (the colon is
part of the literal and there is no optional separator). -/
def marker2At (lits : List (List Char)) (s : List Char) : Option (List Char) :=
  match firstLit lits s with
  | none => none
  | some rest =>
    let r1 := rest.dropWhile py_isspace
    let tok := r1.takeWhile isAlnum
    if tok = [] then none else some tok

/-- Position matcher for `\b(\d{3,4}[A-Z]?)\b` with `IGNORECASE` (so the
optional letter may be any ASCII letter).  The digit run taken is maximal, so
a run of five or more digits can never match (backtracking to three or four
digits leaves a digit right after, violating the trailing `\b`). -/
def bareAt (prev : Option Char) (s : List Char) : Option (List Char) :=
  if boundaryOk prev then
    let ds := s.takeWhile Char.isDigit
    let rest := s.dropWhile Char.isDigit
    if ds.length = 3 || ds.length = 4 then
      match rest with
      | [] => some ds
      | c :: cs2 =>
        if c.isAlpha then
          match cs2 with
          | [] => some (ds ++ [c])
          | d :: _ => if isWordChar d then none else some (ds ++ [c])
        else if isWordChar c then none else some ds
    else none
  else none

/-- Position matcher for a single whole word `\blit\b` (case-insensitive),
capturing the original-case text. -/
def wordLitAt (lit : List Char) (prev : Option Char) (s : List Char) :
    Option (List Char) :=
  if boundaryOk prev then
    match matchLitCI lit s with
    | some rest =>
      match rest with
      | [] => some (s.take lit.length)
      | c :: _ => if isWordChar c then none else some (s.take lit.length)
    | none => none
  else none

/-- Position matcher for `\b(LL|SF)\b` (case-insensitive).  The two
alternatives are exclusive at any position. -/
def llsfAt (prev : Option Char) (s : List Char) : Option (List Char) :=
  match wordLitAt ['l', 'l'] prev s with
  | some r => some r
  | none => wordLitAt ['s', 'f'] prev s

/-- Membership test `room_val[:2] in ("10", "11", "12")` on the two leading
characters. -/
def highRisePair (a b : Char) : Bool :=
  decide ([a, b] = ['1', '0']) || decide ([a, b] = ['1', '1']) ||
    decide ([a, b] = ['1', '2'])

/-- Substring containment (`needle in hay` on Python strings). -/
def listContains (needle : List Char) : List Char → Bool
  | [] => needle.isPrefixOf []
  | c :: cs => needle.isPrefixOf (c :: cs) || listContains needle cs

/-- Case-insensitive substring test on column names
(`term.lower() in col.lower()`). -/
def strContains (term col : String) : Bool :=
  listContains (term.data.map Char.toLower) (col.data.map Char.toLower)

namespace aim_report_automation

/-- First match of the floor marker pattern
`(?:floor|flr|level|lvl)\s*[:\-]?\s*([A-Za-z0-9]+)` (IGNORECASE). -/
def floor_match (cs : List Char) : Option (List Char) :=
  searchAt (marker1At [['f', 'l', 'o', 'o', 'r'], ['f', 'l', 'r'],
    ['l', 'e', 'v', 'e', 'l'], ['l', 'v', 'l']]) cs

/-- First match of the floor pattern `\b(LL|SF)\b` (IGNORECASE). -/
def llsf_match (cs : List Char) : Option (List Char) :=
  searchBAt llsfAt none cs

/-- First match of the room marker pattern
`(?:room|rm)\s*[:\-]?\s*([A-Za-z0-9]+)` (IGNORECASE). -/
def room_match (cs : List Char) : Option (List Char) :=
  searchAt (marker1At [['r', 'o', 'o', 'm'], ['r', 'm']]) cs

/-- First match of the bare room pattern `\b(\d{3,4}[A-Z]?)\b` (IGNORECASE). -/
def bare_room_match (cs : List Char) : Option (List Char) :=
  searchBAt bareAt none cs

/-- The floor patterns are tried in order, first match wins
(`aim_report_automation.py` lines 92-102). -/
def floor_val (cs : List Char) : List Char :=
  match floor_match cs with
  | some v => v
  | none => (llsf_match cs).getD []

/-- The room patterns are tried in order, first match wins
(`aim_report_automation.py` lines 105-115). -/
def room_val (cs : List Char) : List Char :=
  match room_match cs with
  | some v => v
  | none => (bare_room_match cs).getD []

/-- Fallback floor derivation from the room token
(`aim_report_automation.py` lines 117-122). -/
def floorFallback (floor room : List Char) : List Char :=
  if floor = [] then
    match room with
    | [] => floor
    | a :: [] => if a.isDigit then [a] else floor
    | a :: b :: _ =>
      if a.isDigit && b.isDigit then
        (if highRisePair a b then [a, b] else [a])
      else if a.isDigit then [a] else floor
  else floor

/-- Floor normalization (`aim_report_automation.py` lines 124-129). -/
def normalizeFloor (f : List Char) : List Char :=
  if upperList f = ['0'] || upperList f = ['B'] then ['B']
  else if upperList f = ['L', 'L'] then ['L', 'L']
  else if upperList f = ['S', 'F'] then ['S', 'F']
  else f

/-- `_extract_floor_room` (`aim_report_automation.py` lines 83-131). -/
def _extract_floor_room (description : String) : String × String :=
  let cs := pyStrip description.data
  if cs = [] then ("", "")
  else
    (String.mk (normalizeFloor (floorFallback (floor_val cs) (room_val cs))),
     String.mk (room_val cs))

end aim_report_automation

namespace aim_formatter

/-- First match of `(?:Floor:|Flr:)\s*([A-Za-z0-9]+)` (IGNORECASE). -/
def floor_match (cs : List Char) : Option (List Char) :=
  searchAt (marker2At [['f', 'l', 'o', 'o', 'r', ':'], ['f', 'l', 'r', ':']]) cs

/-- First match of `(?:Room:|Rm:)\s*([A-Za-z0-9]+)` (IGNORECASE). -/
def room_match (cs : List Char) : Option (List Char) :=
  searchAt (marker2At [['r', 'o', 'o', 'm', ':'], ['r', 'm', ':']]) cs

/-- Fallback floor derivation from the room number
(`aim_formatter.py` lines 28-34): the high-rise prefix applies only to room
tokens of length at least four; otherwise the leading character is sent
through the digit mapping, which maps `0` to `B` and any non-digit to the
empty string. -/
def floorFallback (floor room : List Char) : List Char :=
  if floor = [] then
    match room with
    | [] => floor
    | a :: b :: _ :: _ :: _ =>
      if a.isDigit && b.isDigit && highRisePair a b then [a, b]
      else if a = '0' then ['B'] else if a.isDigit then [a] else []
    | a :: _ =>
      if a = '0' then ['B'] else if a.isDigit then [a] else []
  else floor

/-- Floor normalization (`aim_formatter.py` lines 35-38); note the second
test is case-sensitive in the source. -/
def normalizeFloor (f : List Char) : List Char :=
  if upperList f = ['S', 'F'] then ['S', 'F']
  else if f = ['0'] || f = ['B'] then ['B']
  else f

/-- `extract_floor_room` (`aim_formatter.py` lines 13-39). -/
def extract_floor_room (description : String) : String × String :=
  if description.data = [] then ("", "")
  else
    let cs := pyStrip description.data
    let f := (floor_match cs).getD []
    let r := (room_match cs).getD []
    (String.mk (normalizeFloor (floorFallback f r)), String.mk r)

end aim_formatter

namespace aim_report_automation

/-- `_floor_rank` (`aim_report_automation.py` lines 134-147).  The Python
function returns a heterogeneous pair `(tier, value)` whose second component
is `""` (tier 0), a string (tiers 1 and 3) or an int (tier 2); components of
different types are never compared because the tier decides first.  It is
encoded here as a homogeneous triple `(tier, string-part, nat-part)` with the
unused slot at a fixed default, which induces exactly the same ordering. -/
def _floor_rank (value : String) : Nat × String × Nat :=
  let s := pyStrip value.data
  if s = [] then (0, "", 0)
  else
    let val := upperList s
    if val = ['B'] || val = ['L', 'L'] || val = ['S', 'F'] then
      (1, String.mk val, 0)
    else if val.all Char.isDigit then (2, "", digitsToNat val)
    else (3, String.mk val, 0)

/-- `value.upper().strip()` as used by both room-rank functions. -/
def roomValU (value : String) : List Char :=
  pyStrip (upperList value.data)

/-- `_room_rank` (`aim_report_automation.py` lines 150-163).  The Python
function returns `(0, "", "")`, `(1, int, suffix)` or `(2, val, "")`; encoded
as a homogeneous triple `(tier, nat-part, string-part)`, inducing the same
ordering (the blank test `str(value).strip() == ""` is equivalent to the
upper-cased stripped value being empty, since upper-casing preserves
whitespace and non-whitespace). -/
def _room_rank (value : String) : Nat × Nat × String :=
  match roomValU value with
  | [] => (0, 0, "")
  | c :: cs =>
    if c.isDigit then
      (1, digitsToNat ((c :: cs).takeWhile Char.isDigit),
       String.mk (((c :: cs).dropWhile Char.isDigit).takeWhile isUpperAlpha))
    else (2, 0, String.mk (c :: cs))

/-- `_building_rank` (`aim_report_automation.py` lines 166-174) with
`BUILDING_ORDER = ["ETB", "WEB", "HEB", ""]`.  The explicit `val == ""`
branch of the source is dead code because `""` is in `BUILDING_ORDER`. -/
def _building_rank (value : String) : Nat :=
  let val := upperList (pyStrip value.data)
  if val = ['E', 'T', 'B'] then 0
  else if val = ['W', 'E', 'B'] then 1
  else if val = ['H', 'E', 'B'] then 2
  else if val = [] then 3
  else 5

end aim_report_automation

namespace aim_formatter

/-- `floor_rank` (`aim_formatter.py` lines 42-50). -/
def floor_rank (floor_val : String) : Nat :=
  let s := pyStrip floor_val.data
  if s = [] then 999
  else
    let v := upperList s
    if v = ['B'] then 0
    else if v = ['S', 'F'] then 99
    else if v.all Char.isDigit then digitsToNat v
    else 999

/-- `room_rank` (`aim_formatter.py` lines 53-60): common-area labels
(containing `HALL`, `STR` or `ELEV`) get their own bucket `700000`, leading
digits give the numeric prefix, other non-blank labels give `600000`, blanks
give `999999`. -/
def room_rank (room_val : String) : Nat :=
  match aim_report_automation.roomValU room_val with
  | [] => 999999
  | c :: cs =>
    let val := c :: cs
    if listContains ['H', 'A', 'L', 'L'] val || listContains ['S', 'T', 'R'] val
        || listContains ['E', 'L', 'E', 'V'] val then 700000
    else if c.isDigit then digitsToNat (val.takeWhile Char.isDigit)
    else 600000

end aim_formatter

/-!
## Sorting

Both scripts sort with `df.sort_values(by=[...])` on several key columns at
once.  With more than one `by` column pandas always uses `numpy.lexsort`, a
stable lexicographic sort (the `kind` argument only applies to single-column
sorts), so the record sort is modelled as a stable insertion sort over the
composite key. -/

/-- Strict lexicographic comparison of pairs from strict comparisons of the
components. -/
def lexLt2 {α β : Type} [DecidableEq α] (la : α → α → Bool) (lb : β → β → Bool)
    (x y : α × β) : Bool :=
  la x.1 y.1 || (decide (x.1 = y.1) && lb x.2 y.2)

/-- Python `<` on natural numbers. -/
def natLt (a b : Nat) : Bool := decide (a < b)

/-- Python string comparison (lexicographic on code points). -/
def charListLt : List Char → List Char → Bool
  | [], [] => false
  | [], _ :: _ => true
  | _ :: _, [] => false
  | a :: as, b :: bs => if a < b then true else if b < a then false else charListLt as bs

/-- Python `<` on strings. -/
def strLt (a b : String) : Bool := charListLt a.data b.data

/-- Composite floor-rank comparison (tier, then string part, then nat part). -/
def fkeyLt : Nat × String × Nat → Nat × String × Nat → Bool :=
  lexLt2 natLt (lexLt2 strLt natLt)

/-- Composite room-rank comparison (tier, then nat part, then string part). -/
def rkeyLt : Nat × Nat × String → Nat × Nat × String → Bool :=
  lexLt2 natLt (lexLt2 natLt strLt)

/-- The composite sort key of `prepare_dataframe`
(`__building_rank`, `__floor_rank`, `__room_rank`). -/
abbrev PKey : Type := Nat × (Nat × String × Nat) × (Nat × Nat × String)

/-- Strict lexicographic comparison of composite keys, exactly Python's tuple
comparison of `(building_rank, floor_rank, room_rank)`. -/
def pkeyLt : PKey → PKey → Bool :=
  lexLt2 natLt (lexLt2 fkeyLt rkeyLt)

/-- Non-strict comparison used by the stable sort. -/
def pkeyLe (x y : PKey) : Bool := pkeyLt x y || decide (x = y)

/-- A work-order record reduced to the fields the sort looks at, plus the
original row position. -/
structure Record where
  building : String
  floor : String
  room : String
  idx : Nat

/-- The composite key `prepare_dataframe` sorts by
(`aim_report_automation.py` lines 245-249). -/
def keyOf (r : Record) : PKey :=
  (aim_report_automation._building_rank r.building,
   aim_report_automation._floor_rank r.floor,
   aim_report_automation._room_rank r.room)

/-- Stable insertion: the new element goes in front of the first element it
compares `le` to, hence in front of elements with an equal key. -/
def insertLe {α : Type} (le : α → α → Bool) (a : α) : List α → List α
  | [] => [a]
  | b :: l => if le a b then a :: b :: l else b :: insertLe le a l

/-- Stable insertion sort (elements are inserted from the right, and an
element is inserted in front of equal-key elements, which all came later in
the input). -/
def insertionSort {α : Type} (le : α → α → Bool) : List α → List α
  | [] => []
  | a :: l => insertLe le a (insertionSort le l)

/-- Record comparison of `prepare_dataframe`. -/
def recLe (r1 r2 : Record) : Bool := pkeyLe (keyOf r1) (keyOf r2)

/-- The record sort of `prepare_dataframe` (`aim_report_automation.py`
line 249): stable sort by `(building_rank, floor_rank, room_rank)`. -/
def sortRecords (l : List Record) : List Record := insertionSort recLe l

/-- The composite key `run_aim_formatter` sorts by
(`aim_formatter.py` lines 104-107): `(__FloorRank, __RoomRank)`. -/
def fmtKey (r : Record) : Nat × Nat :=
  (aim_formatter.floor_rank r.floor, aim_formatter.room_rank r.room)

/-- Record comparison of `run_aim_formatter`. -/
def fmtLe (r1 r2 : Record) : Bool :=
  lexLt2 natLt natLt (fmtKey r1) (fmtKey r2) || decide (fmtKey r1 = fmtKey r2)

/-- The record sort of `run_aim_formatter` (`aim_formatter.py` line 107). -/
def fmtSortRecords (l : List Record) : List Record := insertionSort fmtLe l

/-!
## Business-day aging

Dates are modelled as day numbers counted from 1970-01-01 (a Thursday), so
the weekday of day `d` is `(d + 3) % 7` with `0` = Monday, ..., `4` = Friday,
`5` = Saturday, `6` = Sunday.  `numpy.busday_count(start, end)` counts the
weekdays in the half-open interval `[start, end)` with the default
`Mon Tue Wed Thu Fri` mask and no holidays; when `end` is earlier than
`start` it returns the negated count over `[end, start)`.  A missing or
unparseable date (`pd.to_datetime(..., errors="coerce")` yields `NaT`) is
modelled as `none`. -/

/-- `numpy.busday_count` on day numbers. -/
def busday_count (s e : Nat) : Int :=
  if s ≤ e then
    (((List.range (e - s)).filter (fun i => decide ((s + i + 3) % 7 < 5))).length : Int)
  else
    -((((List.range (s - e)).filter (fun i => decide ((e + i + 3) % 7 < 5))).length : Int))

namespace aim_report_automation

/-- `_business_days` (`aim_report_automation.py` lines 177-186): `None` when
the start date is missing, otherwise `int(np.busday_count(...))`. -/
def _business_days (start : Option Nat) (today : Nat) : Option Int :=
  match start with
  | none => none
  | some s => some (busday_count s today)

/-- The per-row age column (`aim_report_automation.py` line 227):
`date_for_age.apply(lambda d: _business_days(d, today))`. -/
def age_column (dates : List (Option Nat)) (today : Nat) : List (Option Int) :=
  dates.map (fun d => _business_days d today)

/-- `_find_column` (`aim_report_automation.py` lines 59-69): for each search
term in order, return the first column whose name contains the term
case-insensitively.  (The source's final exact-lower-case lookup is dead
code, being subsumed by the substring test.) -/
def _find_column (headers : List String) : List String → Option String
  | [] => none
  | t :: ts =>
    match headers.find? (fun c => strContains t c) with
    | some c => some c
    | none => _find_column headers ts

/-- The column-discovery and age-derivation skeleton of `prepare_dataframe`
(`aim_report_automation.py` lines 208-228): a missing description column is a
fatal error; the date columns are optional, and when both are absent the age
column is `None` for every one of the `n` rows.  `created` and `edited` hold
the per-row (already coerced) values of the respective columns when present. -/
def prepare_dataframe (headers : List String) (created edited : List (Option Nat))
    (today : Nat) (n : Nat) : Except String (List (Option Int)) :=
  match _find_column headers ["description", "desc"] with
  | none => Except.error ("Missing required Description column in CSV input.")
  | some _ =>
    match _find_column headers ["date created", "created"] with
    | some _ => Except.ok (age_column created today)
    | none =>
      match _find_column headers ["edit date", "last updated", "modified"] with
      | some _ => Except.ok (age_column edited today)
      | none => Except.ok (List.replicate n none)

end aim_report_automation

namespace aim_formatter

/-- `calculate_business_days` (`aim_formatter.py` lines 63-69): `None` when
the start date is missing; the source's `np.busday_count(...) or 0` turns a
zero count into the Python int `0`, which is the same value. -/
def calculate_business_days (start : Option Nat) (today : Nat) : Option Int :=
  match start with
  | none => none
  | some s =>
    let c := busday_count s today
    some (if c = 0 then 0 else c)

/-- `find_col` (`aim_formatter.py` lines 86-90): first column whose name
contains the part, case-insensitively. -/
def find_col (headers : List String) (part : String) : Option String :=
  headers.find? (fun c => strContains part c)

/-- The required-column check of `run_aim_formatter`
(`aim_formatter.py` lines 92-96): all three of a work-order, description and
date column must be found or the whole batch is refused. -/
def run_aim_formatter_columns (headers : List String) :
    Except String (String × String × String) :=
  match find_col headers "work", find_col headers "desc", find_col headers "date" with
  | some w, some d, some dt => Except.ok (w, d, dt)
  | _, _, _ => Except.error ("Missing required columns.")

end aim_formatter

/-- The five-floor scenario of the sorting claim: records identical in every
key field except the floor, in input order `["", "B", "2", "SF", "1"]`. -/
def c4_records : List Record :=
  [{ building := "ETB", floor := "", room := "101", idx := 0 },
   { building := "ETB", floor := "B", room := "101", idx := 1 },
   { building := "ETB", floor := "2", room := "101", idx := 2 },
   { building := "ETB", floor := "SF", room := "101", idx := 3 },
   { building := "ETB", floor := "1", room := "101", idx := 4 }]

example : (sortRecords c4_records).map (fun r => r.floor) = ["", "B", "SF", "1", "2"] := by decide
example : (fmtSortRecords c4_records).map (fun r => r.floor) = ["B", "1", "2", "SF", ""] := by decide
example : aim_report_automation._room_rank ("Hallway A") = (2, 0, "HALLWAY A") := by decide
example : aim_report_automation._room_rank ("310") = (1, 310, "") := by decide
example : aim_formatter.room_rank ("Hallway A") = 700000 := by decide
example : aim_formatter.room_rank ("310") = 310 := by decide
example : aim_formatter.room_rank ("Office") = 600000 := by decide
example : busday_count 4 11 = 5 := by decide
example : busday_count 11 4 = -5 := by decide

/-- The claim's high-rise condition on a room token: its first two characters
are digits forming `10`, `11` or `12`; returns that two-character prefix. -/
def highTwo : List Char → Option (List Char)
  | a :: b :: _ =>
    if a.isDigit && b.isDigit && highRisePair a b then some [a, b] else none
  | _ => none

/-- Whether a label (already upper-cased and stripped) starts with a digit,
i.e. whether `re.match(r"(\d+)...", val)` succeeds. -/
def headDigit : List Char → Bool
  | [] => false
  | c :: _ => c.isDigit

/-- Value of the numeric prefix of a room label (`0` when there is none). -/
def leadNum (v : String) : Nat :=
  digitsToNat ((aim_report_automation.roomValU v).takeWhile Char.isDigit)

/-- The common-area test of the formatter's `room_rank`: the upper-cased,
stripped label contains `HALL`, `STR` or `ELEV`. -/
def hasCommonArea (v : String) : Bool :=
  listContains ['H', 'A', 'L', 'L'] (aim_report_automation.roomValU v)
    || listContains ['S', 'T', 'R'] (aim_report_automation.roomValU v)
    || listContains ['E', 'L', 'E', 'V'] (aim_report_automation.roomValU v)

/-- Whether an `Except` result is a success. -/
def isOkE {ε α : Type} : Except ε α → Bool
  | Except.ok _ => true
  | Except.error _ => false

/-!
## Stability of the sort

Stability is expressed by the classical filter characterisation: for every
key value `k`, the sorted list restricted to elements of key `k` is the input
list restricted to elements of key `k` — i.e. equal-key elements appear in
their original relative order. -/

theorem filterCongr {α : Type} {p q : α → Bool} :
    ∀ l : List α, (∀ a, a ∈ l → p a = q a) → l.filter p = l.filter q := by
  intro l
  induction l with
  | nil => intro _; rfl
  | cons a t ih =>
    intro h
    have ha : p a = q a := h a (List.mem_cons_self a t)
    have ht := ih (fun b hb => h b (List.mem_cons_of_mem a hb))
    simp [List.filter_cons, ha, ht]

theorem filter_insertLe_of_neg {α : Type} (le : α → α → Bool) (p : α → Bool)
    (a : α) (h : p a = false) :
    ∀ l : List α, (insertLe le a l).filter p = l.filter p := by
  intro l
  induction l with
  | nil => simp [insertLe, List.filter, h]
  | cons b t ih =>
    by_cases hc : le a b = true
    · simp [insertLe, hc, List.filter_cons, h]
    · simp only [insertLe, hc]
      simp only [Bool.false_eq_true, if_false, List.filter_cons, ih]

theorem filter_insertLe_of_pos {α : Type} (le : α → α → Bool) (p : α → Bool)
    (a : α) (ha : p a = true) :
    ∀ l : List α, (∀ b, b ∈ l → le a b = false → p b = false) →
      (insertLe le a l).filter p = a :: l.filter p := by
  intro l
  induction l with
  | nil => intro _; simp [insertLe, List.filter, ha]
  | cons b t ih =>
    intro hskip
    by_cases hc : le a b = true
    · simp [insertLe, hc, List.filter_cons, ha]
    · have hb : p b = false := by
        refine hskip b (List.mem_cons_self b t) ?hle
        cases hle : le a b with
        | true => exact absurd hle hc
        | false => rfl
      have ht := ih (fun x hx hlex => hskip x (List.mem_cons_of_mem b hx) hlex)
      simp only [insertLe, hc]
      simp only [Bool.false_eq_true, if_false, List.filter_cons, hb]
      simp only [Bool.false_eq_true, if_false, ht]

theorem insertionSort_stable {α κ : Type} [DecidableEq κ]
    (le : α → α → Bool) (key : α → κ)
    (hle : ∀ a b, key a = key b → le a b = true) :
    ∀ (l : List α) (k : κ),
      (insertionSort le l).filter (fun x => decide (key x = k)) =
        l.filter (fun x => decide (key x = k)) := by
  intro l
  induction l with
  | nil => intro k; rfl
  | cons a t ih =>
    intro k
    show (insertLe le a (insertionSort le t)).filter _ = _
    by_cases hk : key a = k
    · have ha : decide (key a = k) = true := by simp [hk]
      rw [filter_insertLe_of_pos le _ a ha (insertionSort le t)
        (fun b _ hlef => ?skip), ih k]
      · simp [List.filter_cons, hk]
      case skip =>
        by_cases hbk : key b = k
        · exact absurd (hle a b (hk.trans hbk.symm)) (by simp [hlef])
        · simp [hbk]
    · have ha : decide (key a = k) = false := by simp [hk]
      rw [filter_insertLe_of_neg le _ a ha (insertionSort le t), ih k]
      simp [List.filter_cons, hk]

example : aim_report_automation._extract_floor_room ("Floor: 2 Room: 204") = ("2", "204") := by decide
example : aim_report_automation._extract_floor_room ("Room: 1104") = ("11", "1104") := by decide
example : aim_report_automation._extract_floor_room ("Elevator near 2nd floor hallway") = ("hallway", "") := by decide
example : aim_report_automation._extract_floor_room ("Basement storage Rm: B12") = ("", "B12") := by decide
example : aim_report_automation._extract_floor_room ("Storm drain Room: 204") = ("", "drain") := by decide
example : aim_formatter.extract_floor_room ("Floor: 2 Room: 204") = ("2", "204") := by decide
example : aim_formatter.extract_floor_room ("Room: 1104") = ("11", "1104") := by decide
example : aim_formatter.extract_floor_room ("Elevator near 2nd floor hallway") = ("", "") := by decide
example : aim_formatter.extract_floor_room ("Basement storage Rm: B12") = ("", "B12") := by decide
example : aim_formatter.extract_floor_room ("Room: 110") = ("1", "110") := by decide

/-!
## The claims
-/

/-- C3 counterexample.  The claim asserts that extraction of
`"Basement storage Rm: B12"` yields floor `"B"`.  In both implementations the
room token is `"B12"`, whose leading character is not a digit, so no fallback
floor is derived and no floor pattern matches: the floor is the empty string,
not `"B"`. -/
theorem spec_c3_ce :
    (aim_report_automation._extract_floor_room ("Basement storage Rm: B12")).1 = ""
    ∧ (aim_formatter.extract_floor_room ("Basement storage Rm: B12")).1 = ""
    ∧ ¬ (aim_report_automation._extract_floor_room ("Basement storage Rm: B12")).1 = "B"
    ∧ ¬ (aim_formatter.extract_floor_room ("Basement storage Rm: B12")).1 = "B" := by
  refine ⟨by decide, by decide, by decide, by decide⟩

/-- C3 (amended): the floors extracted from the four scenario descriptions.
`_extract_floor_room` yields `["2", "11", "hallway", ""]` — the third
description matches the floor pattern `(?:floor|...)\s*[:\-]?\s*([A-Za-z0-9]+)`
at the word `floor` of `"2nd floor hallway"`, capturing `"hallway"`, and the
fourth yields an empty floor since `"B12"` has no leading digit.  The
formatter's `extract_floor_room`, whose floor pattern requires a literal
colon, yields `["2", "11", "", ""]`. -/
theorem spec_c3 :
    (["Floor: 2 Room: 204", "Room: 1104", "Elevator near 2nd floor hallway",
        "Basement storage Rm: B12"].map
      (fun d => (aim_report_automation._extract_floor_room d).1))
      = ["2", "11", "hallway", ""]
    ∧ (["Floor: 2 Room: 204", "Room: 1104", "Elevator near 2nd floor hallway",
        "Basement storage Rm: B12"].map
      (fun d => (aim_formatter.extract_floor_room d).1))
      = ["2", "11", "", ""] := by
  refine ⟨by decide, by decide⟩

/-- C4 counterexample.  The claim asserts that sorting records with floors
`["", "B", "2", "SF", "1"]` yields the order blank, `B`, `1`, `2`, `SF`.
Neither implementation produces that order: `_floor_rank` places the special
token `SF` in tier 1 together with `B`, before all numeric floors, and the
formatter's `floor_rank` gives blanks rank 999, after everything else. -/
theorem spec_c4_ce :
    ¬ (sortRecords c4_records).map (fun r => r.floor) = ["", "B", "1", "2", "SF"]
    ∧ ¬ (fmtSortRecords c4_records).map (fun r => r.floor) = ["", "B", "1", "2", "SF"] := by
  refine ⟨by decide, by decide⟩

/-- C4 (amended): with `prepare_dataframe`'s `_floor_rank` the five records
sort as blank, `B`, `SF`, `1`, `2` (blank first, then the special tokens
`B` and `SF` alphabetically, then numeric floors ascending); with the
formatter's `floor_rank` they sort as `B`, `1`, `2`, `SF`, blank
(basement 0, numerics, sub-floor 99, blank 999 last). -/
theorem spec_c4 :
    (sortRecords c4_records).map (fun r => r.floor) = ["", "B", "SF", "1", "2"]
    ∧ (fmtSortRecords c4_records).map (fun r => r.floor) = ["B", "1", "2", "SF", ""] := by
  refine ⟨by decide, by decide⟩

/-- C6: the record sort is stable.  Records whose composite ordering key
compares equal appear in the sorted output in their original input order, for
both `prepare_dataframe`'s sort (key `(building_rank, floor_rank, room_rank)`)
and `run_aim_formatter`'s sort (key `(floor_rank, room_rank)`), stated via
the filter characterisation of stability. -/
theorem spec_c6 (l : List Record) (k : PKey) (k2 : Nat × Nat) :
    (sortRecords l).filter (fun r => decide (keyOf r = k)) =
      l.filter (fun r => decide (keyOf r = k))
    ∧ (fmtSortRecords l).filter (fun r => decide (fmtKey r = k2)) =
      l.filter (fun r => decide (fmtKey r = k2)) := by
  constructor
  · exact insertionSort_stable recLe keyOf
      (fun a b h => by simp [recLe, pkeyLe, h]) l k
  · exact insertionSort_stable fmtLe fmtKey
      (fun a b h => by simp [fmtLe, h]) l k2

/-- C8: a missing or unparseable creation/edit date (coerced to `NaT` by
`pd.to_datetime(..., errors="coerce")`, modelled as `none`) makes the age
computation return the unavailable marker `none` — not zero and not an
error — in both implementations, and the remaining rows of the age column
are processed unchanged. -/
theorem spec_c8 (today : Nat) (rest : List (Option Nat)) :
    aim_report_automation._business_days none today = none
    ∧ aim_formatter.calculate_business_days none today = none
    ∧ ¬ aim_report_automation._business_days none today = some 0
    ∧ aim_report_automation.age_column (none :: rest) today =
        none :: aim_report_automation.age_column rest today := by
  refine ⟨rfl, rfl, by simp [aim_report_automation._business_days], rfl⟩

/-- C10: a start date later than the end date yields a negative business-day
count, not a clamped zero and not the unavailable marker: day 11 is a Monday
(1970-01-12) and day 4 the Monday before, and both implementations return
`-5` for that pair.  (`calculate_business_days`'s `or 0` only replaces a
zero count by `0`, so negative counts pass through.) -/
theorem spec_c10 :
    aim_report_automation._business_days (some 11) 4 = some (-5)
    ∧ aim_formatter.calculate_business_days (some 11) 4 = some (-5)
    ∧ (-5 : Int) < 0 := by
  refine ⟨by decide, by decide, by decide⟩

/-- C1 counterexample.  The claim asserts that any description containing an
explicit `Room:` marker followed by a token X extracts room = X.  But the
room pattern `(?:room|rm)\s*[:\-]?\s*([A-Za-z0-9]+)` is unanchored and
case-insensitive, so in `"Storm drain Room: 204"` its leftmost match starts
at the `rm` inside `Storm` and captures `"drain"`, not `"204"`, even though
the explicit marker `Room: 204` is present. -/
theorem spec_c1_ce :
    listContains (String.data ("Room: 204")) (String.data ("Storm drain Room: 204")) = true
    ∧ (aim_report_automation._extract_floor_room ("Storm drain Room: 204")).2 = "drain"
    ∧ ¬ (aim_report_automation._extract_floor_room ("Storm drain Room: 204")).2 = "204" := by
  refine ⟨by decide, by decide, by decide⟩

/-- C1 (amended): whenever the room-marker pattern (the `room`/`rm` marker
pattern, whose leftmost match may start inside a longer word) captures a
token, extraction returns exactly that token as the room — a bare 3-4 digit
token elsewhere in the description never takes precedence, in either
implementation.  In particular a description containing both `Room: 204` and
a bare `1204` yields room `"204"`. -/
theorem spec_c1 (desc : String) (tok : List Char) :
    (aim_report_automation.room_match (pyStrip desc.data) = some tok →
      (aim_report_automation._extract_floor_room desc).2 = String.mk tok)
    ∧ (aim_formatter.room_match (pyStrip desc.data) = some tok →
      (aim_formatter.extract_floor_room desc).2 = String.mk tok)
    ∧ (aim_report_automation._extract_floor_room ("Room: 204 and 1204")).2 = "204"
    ∧ (aim_formatter.extract_floor_room ("Room: 204 and 1204")).2 = "204" := by
  refine ⟨?prim, ?fmt, by decide, by decide⟩
  case prim =>
    intro h
    by_cases hcs : pyStrip desc.data = []
    · rw [hcs] at h
      rw [show aim_report_automation.room_match ([] : List Char) = none from rfl] at h
      exact Option.noConfusion h
    · simp [aim_report_automation._extract_floor_room,
        aim_report_automation.room_val, hcs, h]
  case fmt =>
    intro h
    by_cases hd : desc.data = []
    · have hcs : pyStrip desc.data = [] := by rw [hd]; rfl
      rw [hcs] at h
      rw [show aim_formatter.room_match ([] : List Char) = none from rfl] at h
      exact Option.noConfusion h
    · simp [aim_formatter.extract_floor_room, hd, h]

/-- C1 witness: `"Room: 7"` is matched by the room-marker pattern of both
implementations with captured token `7`, and both extract room `"7"`. -/
theorem spec_c1_witness :
    aim_report_automation.room_match (pyStrip (String.data ("Room: 7"))) = some ['7']
    ∧ (aim_report_automation._extract_floor_room ("Room: 7")).2 = String.mk ['7']
    ∧ (aim_formatter.extract_floor_room ("Room: 7")).2 = String.mk ['7'] :=
  ⟨by decide, (spec_c1 ("Room: 7") ['7']).1 (by decide),
    (spec_c1 ("Room: 7") ['7']).2.1 (by decide)⟩

/-- C2 counterexample.  The claim asserts that whenever there is no explicit
floor marker and the extracted room token's first two characters form one of
the high-rise codes 10/11/12, the fallback floor is that two-character
prefix.  The formatter's `extract_floor_room` additionally requires the room
token to have length at least four, so `"Room: 110"` — no floor marker, room
token `110` whose first two characters form the code `11` — yields floor
`"1"`, not `"11"`. -/
theorem spec_c2_ce :
    aim_formatter.floor_match (pyStrip (String.data ("Room: 110"))) = none
    ∧ highTwo ['1', '1', '0'] = some ['1', '1']
    ∧ aim_formatter.extract_floor_room ("Room: 110") = ("1", "110")
    ∧ ¬ (aim_formatter.extract_floor_room ("Room: 110")).1 = "11" := by
  refine ⟨by decide, by decide, by decide, by decide⟩

/-- C2 (amended): in `_extract_floor_room` the fallback behaves exactly as
the claim states — a room token whose first two characters are digits
forming 10, 11 or 12 gives that prefix as the floor, and otherwise a room
token with a leading digit gives that single digit — and both
implementations extract `("11", "1104")` from `"Room: 1104"` and
`("2", "204")` from `"Room: 204"`.  (In the formatter, the high-rise prefix
rule additionally requires a room token of length at least four.) -/
theorem spec_c2 (room pre : List Char) (a : Char) (rest : List Char) :
    (room = a :: rest → highTwo room = some pre →
      aim_report_automation.floorFallback [] room = pre)
    ∧ (room = a :: rest → a.isDigit = true → highTwo room = none →
      aim_report_automation.floorFallback [] room = [a])
    ∧ aim_report_automation._extract_floor_room ("Room: 1104") = ("11", "1104")
    ∧ aim_report_automation._extract_floor_room ("Room: 204") = ("2", "204")
    ∧ aim_formatter.extract_floor_room ("Room: 1104") = ("11", "1104")
    ∧ aim_formatter.extract_floor_room ("Room: 204") = ("2", "204") := by
  refine ⟨?high, ?single, by decide, by decide, by decide, by decide⟩
  case high =>
    intro hr hh
    subst hr
    cases rest with
    | nil =>
      rw [show highTwo [a] = none from rfl] at hh
      exact Option.noConfusion hh
    | cons b t =>
      rw [show highTwo (a :: b :: t) =
          (if a.isDigit && b.isDigit && highRisePair a b then some [a, b]
            else none) from rfl] at hh
      by_cases hc : (a.isDigit && b.isDigit && highRisePair a b) = true
      · rw [if_pos hc] at hh
        injection hh with hpre
        rw [Bool.and_eq_true, Bool.and_eq_true] at hc
        simp [aim_report_automation.floorFallback, hc.1.1, hc.1.2, hc.2, hpre]
      · rw [if_neg hc] at hh
        exact Option.noConfusion hh
  case single =>
    intro hr ha hh
    subst hr
    cases rest with
    | nil => simp [aim_report_automation.floorFallback, ha]
    | cons b t =>
      rw [show highTwo (a :: b :: t) =
          (if a.isDigit && b.isDigit && highRisePair a b then some [a, b]
            else none) from rfl] at hh
      by_cases hc : (a.isDigit && b.isDigit && highRisePair a b) = true
      · rw [if_pos hc] at hh
        exact Option.noConfusion hh
      · by_cases hb : b.isDigit = true
        · have hhr : highRisePair a b = false := by
            cases hhrv : highRisePair a b with
            | false => rfl
            | true => exact absurd (by simp [ha, hb, hhrv]) hc
          simp [aim_report_automation.floorFallback, ha, hb, hhr]
        · simp [aim_report_automation.floorFallback, ha, hb]

/-- C2 witness: for room token `110` the high-rise condition holds and the
fallback floor is `11`; for room token `204` it fails and the fallback floor
is the single leading digit `2`. -/
theorem spec_c2_witness :
    (highTwo ['1', '1', '0'] = some ['1', '1']
      ∧ aim_report_automation.floorFallback [] ['1', '1', '0'] = ['1', '1'])
    ∧ (Char.isDigit '2' = true ∧ highTwo ['2', '0', '4'] = none
      ∧ aim_report_automation.floorFallback [] ['2', '0', '4'] = ['2']) :=
  ⟨⟨by decide, (spec_c2 ['1', '1', '0'] ['1', '1'] '1' ['1', '0']).1 rfl (by decide)⟩,
   ⟨by decide, by decide,
    (spec_c2 ['2', '0', '4'] [] '2' ['0', '4']).2.1 rfl (by decide) (by decide)⟩⟩

/-- C5 counterexample.  The claim asserts that a common-area room label gets
its own lowest-priority bucket and sorts after generic non-numeric labels.
`prepare_dataframe`'s `_room_rank` has no common-area bucket at all:
`"Hallway A"` and `"Office"` land in the same tier 2 and compare
alphabetically, so the common-area label `"Hallway A"` sorts strictly
*before* the generic non-numeric label `"Office"`. -/
theorem spec_c5_ce :
    hasCommonArea ("Hallway A") = true
    ∧ hasCommonArea ("Office") = false
    ∧ rkeyLt (aim_report_automation._room_rank ("Hallway A"))
        (aim_report_automation._room_rank ("Office")) = true := by
  refine ⟨by decide, by decide, by decide⟩

/-- C5 (amended): in the formatter's `room_rank`, labels containing a
common-area substring (`HALL`/`STR`/`ELEV`) rank `700000`, strictly after
every non-common-area non-blank label whose numeric prefix (if any) is below
`700000` — in particular after every ordinary room and every generic
non-numeric label.  In `prepare_dataframe`'s `_room_rank` there is no
common-area bucket: every leading-digit room (tier 1) sorts strictly before
every non-blank label without a leading digit (tier 2), which is why
`"Hallway A"` still sorts after `"310"` in both implementations, but
common-area labels order alphabetically among the other tier-2 labels. -/
theorem spec_c5 (r1 r2 : String) :
    (hasCommonArea r1 = true → hasCommonArea r2 = false →
      ¬ aim_report_automation.roomValU r2 = [] → leadNum r2 < 700000 →
      aim_formatter.room_rank r2 < aim_formatter.room_rank r1)
    ∧ (headDigit (aim_report_automation.roomValU r1) = true →
      ¬ aim_report_automation.roomValU r2 = [] →
      headDigit (aim_report_automation.roomValU r2) = false →
      rkeyLt (aim_report_automation._room_rank r1)
        (aim_report_automation._room_rank r2) = true)
    ∧ rkeyLt (aim_report_automation._room_rank ("310"))
        (aim_report_automation._room_rank ("Hallway A")) = true
    ∧ aim_formatter.room_rank ("310") < aim_formatter.room_rank ("Hallway A") := by
  refine ⟨?fmt, ?prim, by decide, by decide⟩
  case fmt =>
    intro hc1 hc2 hne hlead
    cases h1 : aim_report_automation.roomValU r1 with
    | nil =>
      unfold hasCommonArea at hc1
      rw [h1] at hc1
      exact absurd hc1 (by decide)
    | cons c cs =>
      have hcc : (listContains ['H', 'A', 'L', 'L'] (c :: cs)
          || listContains ['S', 'T', 'R'] (c :: cs)
          || listContains ['E', 'L', 'E', 'V'] (c :: cs)) = true := by
        unfold hasCommonArea at hc1
        rw [h1] at hc1
        exact hc1
      have hr1 : aim_formatter.room_rank r1 = 700000 := by
        unfold aim_formatter.room_rank
        rw [h1]
        simp [hcc]
      cases h2 : aim_report_automation.roomValU r2 with
      | nil => exact absurd h2 hne
      | cons d ds =>
        have hcc2 : (listContains ['H', 'A', 'L', 'L'] (d :: ds)
            || listContains ['S', 'T', 'R'] (d :: ds)
            || listContains ['E', 'L', 'E', 'V'] (d :: ds)) = false := by
          unfold hasCommonArea at hc2
          rw [h2] at hc2
          exact hc2
        have hr2 : aim_formatter.room_rank r2 =
            (if d.isDigit then digitsToNat ((d :: ds).takeWhile Char.isDigit)
              else 600000) := by
          unfold aim_formatter.room_rank
          rw [h2]
          simp [hcc2]
        rw [hr1, hr2]
        by_cases hd : d.isDigit = true
        · rw [if_pos hd]
          have hl : digitsToNat ((d :: ds).takeWhile Char.isDigit) = leadNum r2 := by
            unfold leadNum
            rw [h2]
          rw [hl]
          exact hlead
        · rw [if_neg hd]
          omega
  case prim =>
    intro hh1 hne hh2
    cases h1 : aim_report_automation.roomValU r1 with
    | nil =>
      rw [h1] at hh1
      exact absurd hh1 (by decide)
    | cons c cs =>
      rw [h1] at hh1
      have hc : c.isDigit = true := hh1
      cases h2 : aim_report_automation.roomValU r2 with
      | nil => exact absurd h2 hne
      | cons d ds =>
        rw [h2] at hh2
        have hd : d.isDigit = false := hh2
        have e1 : aim_report_automation._room_rank r1 =
            (1, digitsToNat ((c :: cs).takeWhile Char.isDigit),
             String.mk (((c :: cs).dropWhile Char.isDigit).takeWhile isUpperAlpha)) := by
          unfold aim_report_automation._room_rank
          rw [h1]
          simp [hc]
        have e2 : aim_report_automation._room_rank r2 =
            (2, 0, String.mk (d :: ds)) := by
          unfold aim_report_automation._room_rank
          rw [h2]
          simp [hd]
        rw [e1, e2]
        simp [rkeyLt, lexLt2, natLt]

/-- C5 witness: instantiating the formatter part at the common-area label
`"Hallway A"` against the ordinary room `"310"`, and the
`prepare_dataframe` part at `"310"` against `"Hallway A"`. -/
theorem spec_c5_witness :
    (hasCommonArea ("Hallway A") = true ∧ hasCommonArea ("310") = false
      ∧ ¬ aim_report_automation.roomValU ("310") = [] ∧ leadNum ("310") < 700000
      ∧ aim_formatter.room_rank ("310") < aim_formatter.room_rank ("Hallway A"))
    ∧ (headDigit (aim_report_automation.roomValU ("310")) = true
      ∧ ¬ aim_report_automation.roomValU ("Hallway A") = []
      ∧ headDigit (aim_report_automation.roomValU ("Hallway A")) = false
      ∧ rkeyLt (aim_report_automation._room_rank ("310"))
          (aim_report_automation._room_rank ("Hallway A")) = true) :=
  ⟨⟨by decide, by decide, by decide, by decide,
    (spec_c5 ("Hallway A") ("310")).1 (by decide) (by decide) (by decide) (by decide)⟩,
   ⟨by decide, by decide, by decide,
    (spec_c5 ("310") ("Hallway A")).2.1 (by decide) (by decide) (by decide)⟩⟩

theorem busday_week (m : Nat) (h4 : m % 7 = 4) : busday_count m (m + 7) = 5 := by
  unfold busday_count
  rw [if_pos (Nat.le_add_right m 7), show m + 7 - m = 7 from by omega]
  have hrw : (List.range 7).filter (fun i => decide ((m + i + 3) % 7 < 5)) =
      (List.range 7).filter (fun i => decide (i % 7 < 5)) :=
    filterCongr (List.range 7) (fun i _ => decide_eq_decide.mpr (by omega))
  rw [hrw]
  decide

theorem busday_same (m : Nat) : busday_count m m = 0 := by
  unfold busday_count
  rw [if_pos (Nat.le_refl m), Nat.sub_self]
  rfl

theorem busday_one (m : Nat) (h4 : m % 7 = 4) : busday_count m (m + 1) = 1 := by
  unfold busday_count
  rw [if_pos (Nat.le_add_right m 1), show m + 1 - m = 1 from by omega]
  have hp : (m + 0 + 3) % 7 < 5 := by omega
  simp [List.range, List.range.loop, List.filter, hp]

theorem busday_weekend (m : Nat) (h4 : m % 7 = 4) :
    busday_count (m + 5) (m + 7) = 0 := by
  unfold busday_count
  rw [if_pos (by omega : m + 5 ≤ m + 7), show m + 7 - (m + 5) = 2 from by omega]
  have hp0 : ¬ (m + 5 + 0 + 3) % 7 < 5 := by omega
  have hp1 : ¬ (m + 5 + 1 + 3) % 7 < 5 := by omega
  simp [show List.range 2 = [0, 1] from rfl, List.filter, hp0, hp1]

/-- C7: the business-day count is end-exclusive over weekdays with no
holiday calendar.  Day numbers count from 1970-01-01, so `m` with
`(m + 3) % 7 = 0` is a Monday: from a Monday to the following Monday both
implementations count 5 business days (both weekend days excluded); the
count from a day to itself is 0 (end-exclusive), from a Monday to the next
day is 1 (start-inclusive), and from the following Saturday to the following
Monday is 0. -/
theorem spec_c7 (m : Nat) (h : (m + 3) % 7 = 0) :
    aim_report_automation._business_days (some m) (m + 7) = some 5
    ∧ aim_formatter.calculate_business_days (some m) (m + 7) = some 5
    ∧ aim_report_automation._business_days (some m) m = some 0
    ∧ aim_report_automation._business_days (some m) (m + 1) = some 1
    ∧ aim_report_automation._business_days (some (m + 5)) (m + 7) = some 0 := by
  have h4 : m % 7 = 4 := by omega
  refine ⟨?w, ?wf, ?same, ?one, ?wkd⟩
  case w =>
    simp only [aim_report_automation._business_days, busday_week m h4]
  case wf =>
    simp only [aim_formatter.calculate_business_days, busday_week m h4]
    decide
  case same =>
    simp only [aim_report_automation._business_days, busday_same m]
  case one =>
    simp only [aim_report_automation._business_days, busday_one m h4]
  case wkd =>
    simp only [aim_report_automation._business_days, busday_weekend m h4]

/-- C7 witness: day 4 (1970-01-05) is a Monday; the following Monday is day
11 and the business-day count between them is 5. -/
theorem spec_c7_witness :
    (4 + 3) % 7 = 0
    ∧ (aim_report_automation._business_days (some 4) (4 + 7) = some 5
      ∧ aim_formatter.calculate_business_days (some 4) (4 + 7) = some 5
      ∧ aim_report_automation._business_days (some 4) 4 = some 0
      ∧ aim_report_automation._business_days (some 4) (4 + 1) = some 1
      ∧ aim_report_automation._business_days (some (4 + 5)) (4 + 7) = some 0) :=
  ⟨by decide, spec_c7 4 (by decide)⟩

/-- C9 counterexample.  The claim asserts that only a missing description
column is fatal and that the absence of a creation/edit date column is
tolerated.  `run_aim_formatter` (`aim_formatter.py` lines 92-96) raises
whenever any of its work-order, description or date columns is missing: with
headers `["Work Order", "Description"]` — description present, no date
column — the formatter refuses the whole batch. -/
theorem spec_c9_ce :
    aim_formatter.find_col ["Work Order", "Description"] "desc" = some "Description"
    ∧ aim_formatter.find_col ["Work Order", "Description"] "date" = none
    ∧ aim_formatter.run_aim_formatter_columns ["Work Order", "Description"] =
        Except.error ("Missing required columns.") := by
  refine ⟨by decide, by decide, by rfl⟩

/-- C9 (amended): in `prepare_dataframe` the batch fails exactly when no
description column can be located — the error is raised if and only if the
description lookup fails, and when a description column exists but neither a
creation-date nor an edit-date column does, the batch succeeds with the age
field unavailable (`none`) for every row.  The formatter's
`run_aim_formatter`, by contrast, also treats its date (and work-order)
column as required. -/
theorem spec_c9 (headers : List String) (created edited : List (Option Nat))
    (today n : Nat) :
    (aim_report_automation._find_column headers ["description", "desc"] = none →
      aim_report_automation.prepare_dataframe headers created edited today n =
        Except.error ("Missing required Description column in CSV input."))
    ∧ ((aim_report_automation._find_column headers ["description", "desc"]).isSome = true →
      isOkE (aim_report_automation.prepare_dataframe headers created edited today n) = true)
    ∧ ((aim_report_automation._find_column headers ["description", "desc"]).isSome = true →
      aim_report_automation._find_column headers ["date created", "created"] = none →
      aim_report_automation._find_column headers ["edit date", "last updated", "modified"] = none →
      aim_report_automation.prepare_dataframe headers created edited today n =
        Except.ok (List.replicate n none)) := by
  refine ⟨?err, ?ok, ?nodate⟩
  case err =>
    intro h
    unfold aim_report_automation.prepare_dataframe
    rw [h]
  case ok =>
    intro h
    obtain ⟨c, hc⟩ := Option.isSome_iff_exists.mp h
    unfold aim_report_automation.prepare_dataframe
    rw [hc]
    cases hd : aim_report_automation._find_column headers ["date created", "created"] with
    | some _ => rfl
    | none =>
      cases he : aim_report_automation._find_column headers
          ["edit date", "last updated", "modified"] with
      | some _ => rfl
      | none => rfl
  case nodate =>
    intro h hd he
    obtain ⟨c, hc⟩ := Option.isSome_iff_exists.mp h
    unfold aim_report_automation.prepare_dataframe
    rw [hc, hd, he]

/-- C9 witness: with the single header `"Description"` the description column
is found, no date column exists, and `prepare_dataframe` succeeds with the
age field unavailable for both rows. -/
theorem spec_c9_witness :
    (aim_report_automation._find_column ["Description"] ["description", "desc"]).isSome = true
    ∧ aim_report_automation._find_column ["Description"] ["date created", "created"] = none
    ∧ aim_report_automation._find_column ["Description"] ["edit date", "last updated", "modified"] = none
    ∧ aim_report_automation.prepare_dataframe ["Description"] [] [] 0 2 =
        Except.ok (List.replicate 2 none) :=
  ⟨by decide, by decide, by decide,
    (spec_c9 ["Description"] [] [] 0 2).2.2 (by decide) (by decide) (by decide)⟩
